import Mathlib

/-!
Verification of the Gumroad proxy serverless handler (`/api/gumroad.js`).

The repository holds one serverless function that proxies the Gumroad API:
it reads two configuration values, issues two outbound fetches (product and
reviews), merges the parsed payloads into one JSON body, and responds with
HTTP 200 plus a cache-control header on success, or HTTP 500 with a
structured error on any failure.  The authoritative variant embedded below
is the defensive one (404-tolerant reviews call, zero defaults for the
optional rating fields, permalink fallback, 900-second shared cache).

Modelling conventions:
* JavaScript strings are Lean `String`s; optional / possibly-undefined
  fields are `Option`; JS falsiness of a string (undefined or `""`) is
  made explicit.
* JS numbers that the handler merely forwards are `Int` (counts) or `ℚ`
  (review ratings); `parseFloat` is modelled on decimal strings, returning
  `none` for NaN.  Special values such as `Infinity` do not occur in the
  payloads the claims quantify over and are not modelled.
* The two outbound fetches appear as inputs: an `UpstreamResp` carries the
  HTTP status, the raw body text (used by `.text()` on error paths) and
  the parsed payload (the value `.json()` would yield; the claims only
  inspect payloads of 2xx responses, so JSON parse failures are out of
  scope).
* The handler additionally reports the list of outbound URLs it fetches,
  so that "no outbound call is issued" is statable.
-/

/-- JS truthiness of a possibly-undefined string: `undefined` and `""` are
falsy, every other string is truthy. -/
def jsTruthyStr : Option String → Bool
  | none => false
  | some s => !s.isEmpty

/-- JS `x || d` for a possibly-undefined string `x`: the fallback `d` is
used when `x` is falsy. -/
def jsOrStr (x : Option String) (d : String) : String :=
  if jsTruthyStr x then x.getD d else d

/-- JS `x || 0` for a possibly-undefined number `x` (a falsy number is `0`,
so the fallback only matters when the field is absent). -/
def jsOrZero : Option Int → Int
  | none => 0
  | some n => if n = 0 then 0 else n

/-- `Response.ok`: the status is in the inclusive range 200–299. -/
def statusOk (s : Nat) : Bool := 200 ≤ s && s ≤ 299

/-- Digits accumulated into a natural number, most significant first. -/
def digitsVal (ds : List Char) : Nat :=
  ds.foldl (fun acc c => 10 * acc + (c.toNat - '0'.toNat)) 0

/-- `parseFloat` on a decimal string, per the JS semantics the handler
relies on: skip leading whitespace, read an optional sign, integer digits,
an optional fractional part and an optional exponent, stopping at the
first character that does not fit; `none` models NaN (no digits found). -/
def parseFloat (s : String) : Option ℚ :=
  let cs := s.toList.dropWhile Char.isWhitespace
  let neg := cs.head? = some '-'
  let cs := if cs.head? = some '-' ∨ cs.head? = some '+' then cs.tail else cs
  let intDs := cs.takeWhile Char.isDigit
  let cs := cs.dropWhile Char.isDigit
  let fracDs := if cs.head? = some '.' then cs.tail.takeWhile Char.isDigit else []
  let cs := if cs.head? = some '.' then cs.tail.dropWhile Char.isDigit else cs
  if intDs.isEmpty ∧ fracDs.isEmpty then
    none
  else
    let mantNum : Nat := digitsVal intDs * 10 ^ fracDs.length + digitsVal fracDs
    let expVal : Int :=
      if cs.head? = some 'e' ∨ cs.head? = some 'E' then
        let es := cs.tail
        let eneg := es.head? = some '-'
        let es := if es.head? = some '-' ∨ es.head? = some '+' then es.tail else es
        let eDs := es.takeWhile Char.isDigit
        if eDs.isEmpty then 0
        else if eneg then -(digitsVal eDs : Int) else (digitsVal eDs : Int)
      else 0
    let e10 : Int := expVal - fracDs.length
    let num : Int := (if neg then -(mantNum : Int) else (mantNum : Int)) *
      (if 0 ≤ e10 then (10 : Int) ^ e10.toNat else 1)
    let den : Nat := if 0 ≤ e10 then 1 else 10 ^ (-e10).toNat
    some (mkRat num den)

/-- The optional `rating` object inside the upstream product payload. -/
structure RatingObj where
  average_rating : Option String
  count : Option Int
  deriving Repr, DecidableEq

/-- The `product` object of the upstream product payload, restricted to
the fields the handler reads. -/
structure ProductInfo where
  sales_count : Int
  rating : Option RatingObj
  formatted_price : String
  permalink : Option String
  deriving Repr, DecidableEq

/-- The parsed product payload (`productRes.json()`). -/
structure ProductPayload where
  product : ProductInfo
  deriving Repr, DecidableEq

/-- One upstream review record, restricted to the fields the handler reads. -/
structure ReviewRecord where
  user_name : String
  rating : ℚ
  review_content : String
  deriving Repr, DecidableEq

/-- The parsed reviews payload (`reviewsRes.json()`). -/
structure ReviewsPayload where
  reviews : List ReviewRecord
  deriving Repr, DecidableEq

/-- An upstream HTTP response: status, raw body text, parsed payload. -/
structure UpstreamResp (α : Type) where
  status : Nat
  bodyText : String
  payload : α
  deriving Repr, DecidableEq

/-- One entry of the `reviews` array in the handler's output body. -/
structure ReviewEntry where
  name : String
  rating : ℚ
  content : String
  avatar_id : String
  deriving Repr, DecidableEq

/-- The merged success body (`responseData`). `rating_average` is
`Option ℚ` because `parseFloat` can yield NaN. -/
structure ResponseData where
  sales_count : Int
  rating_average : Option ℚ
  rating_count : Int
  formatted_price : String
  permalink : String
  reviews : List ReviewEntry
  deriving Repr, DecidableEq

/-- The JSON body the handler writes: the merged data on success, or the
structured `{error, details}` object on failure. -/
inductive RespBody where
  | ok (data : ResponseData)
  | err (error : String) (details : String)
  deriving Repr, DecidableEq

/-- The handler's HTTP response: status code, the `Cache-Control` header
if one was set, and the JSON body. -/
structure HttpResponse where
  status : Nat
  cacheControl : Option String
  body : RespBody
  deriving Repr, DecidableEq

/-- One handler invocation's observable outcome: the HTTP response and the
list of outbound URLs fetched. -/
structure HandlerRun where
  response : HttpResponse
  calls : List String
  deriving Repr, DecidableEq

/-- The configuration the handler reads: the two environment variables. -/
structure Config where
  gumroadAccessToken : Option String
  gumroadProductId : Option String
  deriving Repr, DecidableEq

/-- `PRODUCT_ID`: the configured product identifier, falling back to the
hardcoded literal. -/
def productId (c : Config) : String := jsOrStr c.gumroadProductId "rdcvzn"

/-- The product endpoint URL. -/
def productUrl (c : Config) : String :=
  "https://api.gumroad.com/v2/products/" ++ productId c

/-- The reviews endpoint URL. -/
def reviewsUrl (c : Config) : String :=
  "https://api.gumroad.com/v2/products/" ++ productId c ++ "/reviews"

/-- The generic message of every 500 error body. -/
def genericErrorMsg : String :=
  "An internal server error occurred while fetching Gumroad data."

/-- An HTTP 500 response carrying the structured error body; no
`Cache-Control` header is set on this path. -/
def errorResponse (details : String) : HttpResponse :=
  { status := 500, cacheControl := none, body := .err genericErrorMsg details }

/-- The argument the handler hands to `parseFloat` for the average rating:
`productData.product.rating?.average_rating || 0` — the number `0`
(which `parseFloat` receives as the string `"0"`) whenever the rating
object is absent or its `average_rating` field is absent or falsy. -/
def ratingAvgArg (r : Option RatingObj) : String :=
  match r with
  | none => "0"
  | some ro =>
    match ro.average_rating with
    | none => "0"
    | some s => if s.isEmpty then "0" else s

/-- `rating?.count || 0`. -/
def ratingCountVal (r : Option RatingObj) : Int :=
  match r with
  | none => 0
  | some ro => jsOrZero ro.count

/-- One upstream review record mapped to an output `ReviewEntry`;
`avatar_id` keeps exactly the ASCII alphanumeric characters of the
reviewer name (the regex `[^a-zA-Z0-9]` with global replacement by `""`). -/
def toReviewEntry (r : ReviewRecord) : ReviewEntry :=
  { name := r.user_name
    rating := r.rating
    content := r.review_content
    avatar_id := r.user_name.toList.filter Char.isAlphanum |>.asString }

/-- `responseData`: the merged success body built from the two parsed
payloads. -/
def buildResponseData (pd : ProductPayload) (rd : ReviewsPayload) : ResponseData :=
  { sales_count := pd.product.sales_count
    rating_average := parseFloat (ratingAvgArg pd.product.rating)
    rating_count := ratingCountVal pd.product.rating
    formatted_price := pd.product.formatted_price
    permalink := jsOrStr pd.product.permalink "rdcvzn"
    reviews := rd.reviews.map toReviewEntry }

/-- The `Cache-Control` header value set on the success path. -/
def cacheHeaderValue : String := "s-maxage=900, stale-while-revalidate"

/-- The serverless handler: token check, two outbound fetches in parallel,
product-must-succeed check, 404-tolerant reviews check, merge, and the
success or error response.  The fetch outcomes are inputs; the returned
`calls` list records which outbound URLs were fetched. -/
def handler (c : Config) (productRes : UpstreamResp ProductPayload)
    (reviewsRes : UpstreamResp ReviewsPayload) : HandlerRun :=
  if !jsTruthyStr c.gumroadAccessToken then
    { response := errorResponse "Server configuration error: Missing API token."
      calls := [] }
  else
    let calls := [productUrl c, reviewsUrl c]
    if !statusOk productRes.status then
      { response := errorResponse
          ("Gumroad Product API responded with status " ++ toString productRes.status ++
            ". Details: " ++ productRes.bodyText)
        calls := calls }
    else if statusOk reviewsRes.status then
      { response :=
          { status := 200
            cacheControl := some cacheHeaderValue
            body := .ok (buildResponseData productRes.payload reviewsRes.payload) }
        calls := calls }
    else if reviewsRes.status = 404 then
      { response :=
          { status := 200
            cacheControl := some cacheHeaderValue
            body := .ok (buildResponseData productRes.payload ⟨[]⟩) }
        calls := calls }
    else
      { response := errorResponse
          ("Gumroad Reviews API responded with status " ++ toString reviewsRes.status ++
            ". Details: " ++ reviewsRes.bodyText)
        calls := calls }

/-- One character JSON-escaped (quote and backslash; enough for a
deterministic rendering of the bodies). -/
def jsonEscapeChar (c : Char) : String :=
  if c = '"' then "\\\"" else if c = '\\' then "\\\\" else String.singleton c

/-- A string JSON-escaped. -/
def jsonEscape (s : String) : String :=
  String.join (s.toList.map jsonEscapeChar)

/-- A JSON string literal. -/
def encodeStr (s : String) : String := "\"" ++ jsonEscape s ++ "\""

/-- A possibly-NaN number rendered as JSON (`JSON.stringify(NaN)` is
`null`). -/
def encodeOptNum : Option ℚ → String
  | none => "null"
  | some q => toString q

/-- One `ReviewEntry` rendered as JSON, keys in the source's order. -/
def encodeEntry (e : ReviewEntry) : String :=
  "\x7b\"name\":" ++ encodeStr e.name ++ ",\"rating\":" ++ toString e.rating ++
    ",\"content\":" ++ encodeStr e.content ++ ",\"avatar_id\":" ++ encodeStr e.avatar_id ++ "\x7d"

/-- The merged success body rendered as JSON, keys in the source's order. -/
def encodeData (d : ResponseData) : String :=
  "\x7b\"sales_count\":" ++ toString d.sales_count ++
    ",\"rating_average\":" ++ encodeOptNum d.rating_average ++
    ",\"rating_count\":" ++ toString d.rating_count ++
    ",\"formatted_price\":" ++ encodeStr d.formatted_price ++
    ",\"permalink\":" ++ encodeStr d.permalink ++
    ",\"reviews\":[" ++ String.intercalate "," (d.reviews.map encodeEntry) ++ "]\x7d"

/-- The response body serialized to the bytes written on the wire: the
merged data or the structured error object. -/
def encodeRespBody : RespBody → String
  | .ok d => encodeData d
  | .err e det => "\x7b\"error\":" ++ encodeStr e ++ ",\"details\":" ++ encodeStr det ++ "\x7d"

/-! Concrete sample inputs used by the witness theorems. -/

/-- A configuration with both environment variables set. -/
def cfgSample : Config :=
  { gumroadAccessToken := some "tok", gumroadProductId := some "abc123" }

/-- A configuration with the credential absent. -/
def cfgNoToken : Config :=
  { gumroadAccessToken := none, gumroadProductId := some "abc123" }

/-- A successful product response with a full payload. -/
def productRespSample : UpstreamResp ProductPayload :=
  { status := 200, bodyText := ""
    payload := { product :=
      { sales_count := 42
        rating := some { average_rating := some "4.5", count := some 12 }
        formatted_price := "$19"
        permalink := some "rdcvzn" } } }

/-- A successful product response whose payload lacks the rating object
and the permalink. -/
def productRespBare : UpstreamResp ProductPayload :=
  { status := 200, bodyText := ""
    payload := { product :=
      { sales_count := 7
        rating := none
        formatted_price := "$9"
        permalink := none } } }

/-- A failed (503) product response. -/
def productRespBad : UpstreamResp ProductPayload :=
  { status := 503, bodyText := "boom"
    payload := { product :=
      { sales_count := 0, rating := none, formatted_price := "", permalink := none } } }

/-- A successful reviews response with one review. -/
def reviewsRespSample : UpstreamResp ReviewsPayload :=
  { status := 200, bodyText := ""
    payload := ⟨[{ user_name := "Ann-Marie K.", rating := 5, review_content := "Great!" }]⟩ }

/-- A 404 reviews response. -/
def reviewsResp404 : UpstreamResp ReviewsPayload :=
  { status := 404, bodyText := "not found", payload := ⟨[]⟩ }

/-- A failed (503) reviews response. -/
def reviewsRespBad : UpstreamResp ReviewsPayload :=
  { status := 503, bodyText := "oops", payload := ⟨[]⟩ }

/-! Claim theorems. -/

set_option maxRecDepth 10000 in
/-- `parseFloat` of the defaulted argument `"0"` is exactly `0`. -/
theorem parseFloat_zero : parseFloat "0" = some 0 := by rfl

/-- The literal 404 is not a 2xx status. -/
theorem statusOk_404 : statusOk 404 = false := by decide

/-- Claim C1: with the credential present, a 2xx product response and a
404 reviews response, the handler responds with HTTP 200 and a body whose
`reviews` field is the empty list — the 404 is not treated as an error. -/
theorem handler_reviews404_gives_200_empty (c : Config)
    (p : UpstreamResp ProductPayload) (r : UpstreamResp ReviewsPayload)
    (htok : jsTruthyStr c.gumroadAccessToken = true)
    (hp : statusOk p.status = true) (hr : r.status = 404) :
    (handler c p r).response.status = 200 ∧
      ∃ d, (handler c p r).response.body = .ok d ∧ d.reviews = [] := by
  refine ⟨by simp [handler, htok, hp, hr, statusOk_404],
    buildResponseData p.payload ⟨[]⟩,
    by simp [handler, htok, hp, hr, statusOk_404], by simp [buildResponseData]⟩

/-- Witness for C1 at a concrete configuration and concrete upstream
responses. -/
theorem handler_reviews404_gives_200_empty_w :
    jsTruthyStr cfgSample.gumroadAccessToken = true ∧
      statusOk productRespSample.status = true ∧ reviewsResp404.status = 404 ∧
      ((handler cfgSample productRespSample reviewsResp404).response.status = 200 ∧
        ∃ d, (handler cfgSample productRespSample reviewsResp404).response.body = .ok d ∧
          d.reviews = []) :=
  ⟨by decide, by decide, by decide,
    handler_reviews404_gives_200_empty cfgSample productRespSample reviewsResp404
      (by decide) (by decide) (by decide)⟩

/-- Claim C2: with the credential present, a 2xx product response whose
payload lacks the optional rating object, and a non-failing reviews
outcome (2xx or 404), the 200 response body defaults `rating_average` to
`0` and `rating_count` to `0`. -/
theorem handler_missing_rating_defaults_zero (c : Config)
    (p : UpstreamResp ProductPayload) (r : UpstreamResp ReviewsPayload)
    (htok : jsTruthyStr c.gumroadAccessToken = true)
    (hp : statusOk p.status = true)
    (hrating : p.payload.product.rating = none)
    (hr : statusOk r.status = true ∨ r.status = 404) :
    (handler c p r).response.status = 200 ∧
      ∃ d, (handler c p r).response.body = .ok d ∧
        d.rating_average = some 0 ∧ d.rating_count = 0 := by
  rcases hr with hr | hr
  · refine ⟨by simp [handler, htok, hp, hr], buildResponseData p.payload r.payload,
      by simp [handler, htok, hp, hr], ?_, ?_⟩
    · simp [buildResponseData, ratingAvgArg, hrating, parseFloat_zero]
    · simp [buildResponseData, ratingCountVal, hrating]
  · refine ⟨by simp [handler, htok, hp, hr, statusOk_404],
      buildResponseData p.payload ⟨[]⟩,
      by simp [handler, htok, hp, hr, statusOk_404], ?_, ?_⟩
    · simp [buildResponseData, ratingAvgArg, hrating, parseFloat_zero]
    · simp [buildResponseData, ratingCountVal, hrating]

/-- Witness for C2 at a concrete configuration and a product payload with
no rating object. -/
theorem handler_missing_rating_defaults_zero_w :
    jsTruthyStr cfgSample.gumroadAccessToken = true ∧
      statusOk productRespBare.status = true ∧
      productRespBare.payload.product.rating = none ∧
      statusOk reviewsRespSample.status = true ∧
      ((handler cfgSample productRespBare reviewsRespSample).response.status = 200 ∧
        ∃ d, (handler cfgSample productRespBare reviewsRespSample).response.body = .ok d ∧
          d.rating_average = some 0 ∧ d.rating_count = 0) :=
  ⟨by decide, by decide, by decide, by decide,
    handler_missing_rating_defaults_zero cfgSample productRespBare reviewsRespSample
      (by decide) (by decide) (by decide) (Or.inl (by decide))⟩

/-- Claim C3: with the credential absent, the handler responds with HTTP
500, the error detail mentions configuration, and no outbound call is
issued. -/
theorem handler_missing_token_500_no_calls (c : Config)
    (p : UpstreamResp ProductPayload) (r : UpstreamResp ReviewsPayload)
    (htok : c.gumroadAccessToken = none) :
    (handler c p r).response.status = 500 ∧
      (handler c p r).response.body =
        .err genericErrorMsg ("Server " ++ "configuration" ++ " error: Missing API token.") ∧
      (handler c p r).calls = [] := by
  refine ⟨?_, ?_, ?_⟩ <;> simp [handler, htok, jsTruthyStr, errorResponse]

/-- Witness for C3 at a concrete configuration with the credential absent. -/
theorem handler_missing_token_500_no_calls_w :
    cfgNoToken.gumroadAccessToken = none ∧
      ((handler cfgNoToken productRespSample reviewsRespSample).response.status = 500 ∧
        (handler cfgNoToken productRespSample reviewsRespSample).response.body =
          .err genericErrorMsg ("Server " ++ "configuration" ++ " error: Missing API token.") ∧
        (handler cfgNoToken productRespSample reviewsRespSample).calls = []) :=
  ⟨by decide,
    handler_missing_token_500_no_calls cfgNoToken productRespSample reviewsRespSample rfl⟩

/-- Claim C4: with the credential present and a non-2xx product response,
the handler responds with HTTP 500 — for every reviews outcome — and the
error detail embeds the upstream status and body. -/
theorem handler_product_failure_500 (c : Config)
    (p : UpstreamResp ProductPayload) (r : UpstreamResp ReviewsPayload)
    (htok : jsTruthyStr c.gumroadAccessToken = true)
    (hp : statusOk p.status = false) :
    (handler c p r).response.status = 500 ∧
      (handler c p r).response.body =
        .err genericErrorMsg
          ("Gumroad Product API responded with status " ++ toString p.status ++
            ". Details: " ++ p.bodyText) := by
  refine ⟨?_, ?_⟩ <;> simp [handler, htok, hp, errorResponse]

/-- Witness for C4 at a concrete 503 product response (with a successful
reviews response, showing the reviews outcome does not matter). -/
theorem handler_product_failure_500_w :
    jsTruthyStr cfgSample.gumroadAccessToken = true ∧
      statusOk productRespBad.status = false ∧
      ((handler cfgSample productRespBad reviewsRespSample).response.status = 500 ∧
        (handler cfgSample productRespBad reviewsRespSample).response.body =
          .err genericErrorMsg
            ("Gumroad Product API responded with status " ++ toString productRespBad.status ++
              ". Details: " ++ productRespBad.bodyText)) :=
  ⟨by decide, by decide,
    handler_product_failure_500 cfgSample productRespBad reviewsRespSample
      (by decide) (by decide)⟩

/-- Claim C5: with the credential present and a non-2xx, non-404 reviews
response, the handler responds with HTTP 500; when the product call
succeeded, the detail embeds the reviews call's upstream status and body
(when the product call also failed, the 500 carries the product call's
status and body instead, per C4). -/
theorem handler_reviews_failure_500 (c : Config)
    (p : UpstreamResp ProductPayload) (r : UpstreamResp ReviewsPayload)
    (htok : jsTruthyStr c.gumroadAccessToken = true)
    (hr1 : statusOk r.status = false) (hr2 : r.status ≠ 404) :
    (handler c p r).response.status = 500 ∧
      (statusOk p.status = true →
        (handler c p r).response.body =
          .err genericErrorMsg
            ("Gumroad Reviews API responded with status " ++ toString r.status ++
              ". Details: " ++ r.bodyText)) := by
  constructor
  · cases hp : statusOk p.status <;>
      simp [handler, htok, hp, hr1, hr2, errorResponse]
  · intro hp
    simp [handler, htok, hp, hr1, hr2, errorResponse]

/-- Witness for C5 at a concrete 503 reviews response with a successful
product response. -/
theorem handler_reviews_failure_500_w :
    jsTruthyStr cfgSample.gumroadAccessToken = true ∧
      statusOk reviewsRespBad.status = false ∧ reviewsRespBad.status ≠ 404 ∧
      ((handler cfgSample productRespSample reviewsRespBad).response.status = 500 ∧
        (statusOk productRespSample.status = true →
          (handler cfgSample productRespSample reviewsRespBad).response.body =
            .err genericErrorMsg
              ("Gumroad Reviews API responded with status " ++ toString reviewsRespBad.status ++
                ". Details: " ++ reviewsRespBad.bodyText))) :=
  ⟨by decide, by decide, by decide,
    handler_reviews_failure_500 cfgSample productRespSample reviewsRespBad
      (by decide) (by decide) (by decide)⟩

/-- Claim C6: with the credential present and 2xx product and reviews
responses, the 200 body carries the five product fields mapped from the
product payload, and exactly one `ReviewEntry` per upstream review record,
each entry's `avatar_id` being the reviewer name with every
non-alphanumeric character removed. -/
theorem handler_success_body_mapped (c : Config)
    (p : UpstreamResp ProductPayload) (r : UpstreamResp ReviewsPayload)
    (htok : jsTruthyStr c.gumroadAccessToken = true)
    (hp : statusOk p.status = true) (hr : statusOk r.status = true) :
    (handler c p r).response.status = 200 ∧
      ∃ d, (handler c p r).response.body = .ok d ∧
        d.sales_count = p.payload.product.sales_count ∧
        d.rating_average = parseFloat (ratingAvgArg p.payload.product.rating) ∧
        d.rating_count = ratingCountVal p.payload.product.rating ∧
        d.formatted_price = p.payload.product.formatted_price ∧
        d.permalink = jsOrStr p.payload.product.permalink "rdcvzn" ∧
        d.reviews.length = r.payload.reviews.length ∧
        d.reviews = r.payload.reviews.map (fun rec =>
          { name := rec.user_name
            rating := rec.rating
            content := rec.review_content
            avatar_id := (rec.user_name.toList.filter Char.isAlphanum).asString }) := by
  refine ⟨by simp [handler, htok, hp, hr], buildResponseData p.payload r.payload,
    by simp [handler, htok, hp, hr], rfl, rfl, rfl, rfl, rfl, ?_, rfl⟩
  simp [buildResponseData]

/-- Witness for C6 at concrete upstream responses with one review. -/
theorem handler_success_body_mapped_w :
    jsTruthyStr cfgSample.gumroadAccessToken = true ∧
      statusOk productRespSample.status = true ∧
      statusOk reviewsRespSample.status = true ∧
      ((handler cfgSample productRespSample reviewsRespSample).response.status = 200 ∧
        ∃ d, (handler cfgSample productRespSample reviewsRespSample).response.body = .ok d ∧
          d.sales_count = productRespSample.payload.product.sales_count ∧
          d.rating_average = parseFloat (ratingAvgArg productRespSample.payload.product.rating) ∧
          d.rating_count = ratingCountVal productRespSample.payload.product.rating ∧
          d.formatted_price = productRespSample.payload.product.formatted_price ∧
          d.permalink = jsOrStr productRespSample.payload.product.permalink "rdcvzn" ∧
          d.reviews.length = reviewsRespSample.payload.reviews.length ∧
          d.reviews = reviewsRespSample.payload.reviews.map (fun rec =>
            { name := rec.user_name
              rating := rec.rating
              content := rec.review_content
              avatar_id := (rec.user_name.toList.filter Char.isAlphanum).asString })) :=
  ⟨by decide, by decide, by decide,
    handler_success_body_mapped cfgSample productRespSample reviewsRespSample
      (by decide) (by decide) (by decide)⟩

/-- Claim C7: with the credential present, a 2xx product response and a
non-failing reviews outcome (2xx or 404), the response has HTTP status 200
and a cache-control header advising a shared-cache lifetime of exactly 900
seconds with stale-while-revalidate semantics. -/
theorem handler_success_cache_header (c : Config)
    (p : UpstreamResp ProductPayload) (r : UpstreamResp ReviewsPayload)
    (htok : jsTruthyStr c.gumroadAccessToken = true)
    (hp : statusOk p.status = true)
    (hr : statusOk r.status = true ∨ r.status = 404) :
    (handler c p r).response.status = 200 ∧
      (handler c p r).response.cacheControl =
        some ("s-maxage=" ++ toString (900 : ℕ) ++ ", stale-while-revalidate") := by
  have hcv : cacheHeaderValue = "s-maxage=" ++ toString (900 : ℕ) ++ ", stale-while-revalidate" := by
    decide
  rcases hr with hr | hr
  · exact ⟨by simp [handler, htok, hp, hr], by simp [handler, htok, hp, hr, hcv]⟩
  · exact ⟨by simp [handler, htok, hp, hr, statusOk_404],
      by simp [handler, htok, hp, hr, statusOk_404, hcv]⟩

/-- Witness for C7 at concrete successful upstream responses. -/
theorem handler_success_cache_header_w :
    jsTruthyStr cfgSample.gumroadAccessToken = true ∧
      statusOk productRespSample.status = true ∧
      statusOk reviewsRespSample.status = true ∧
      ((handler cfgSample productRespSample reviewsRespSample).response.status = 200 ∧
        (handler cfgSample productRespSample reviewsRespSample).response.cacheControl =
          some ("s-maxage=" ++ toString (900 : ℕ) ++ ", stale-while-revalidate")) :=
  ⟨by decide, by decide, by decide,
    handler_success_cache_header cfgSample productRespSample reviewsRespSample
      (by decide) (by decide) (Or.inl (by decide))⟩

/-- Claim C8: the handler is a pure function of the configuration and the
two upstream responses — two executions with identical configuration and
identical upstream responses produce identical outcomes, and in particular
byte-identical serialized output bodies. -/
theorem handler_deterministic (c c' : Config)
    (p p' : UpstreamResp ProductPayload) (r r' : UpstreamResp ReviewsPayload)
    (hc : c = c') (hp : p = p') (hr : r = r') :
    handler c p r = handler c' p' r' ∧
      encodeRespBody (handler c p r).response.body =
        encodeRespBody (handler c' p' r').response.body := by
  subst hc; subst hp; subst hr; exact ⟨rfl, rfl⟩

/-- Witness for C8 at concrete equal inputs. -/
theorem handler_deterministic_w :
    cfgSample = cfgSample ∧ productRespSample = productRespSample ∧
      reviewsResp404 = reviewsResp404 ∧
      (handler cfgSample productRespSample reviewsResp404 =
          handler cfgSample productRespSample reviewsResp404 ∧
        encodeRespBody (handler cfgSample productRespSample reviewsResp404).response.body =
          encodeRespBody (handler cfgSample productRespSample reviewsResp404).response.body) :=
  ⟨rfl, rfl, rfl,
    handler_deterministic cfgSample cfgSample productRespSample productRespSample
      reviewsResp404 reviewsResp404 rfl rfl rfl⟩

/-- Claim C9: with the credential present, a 2xx product response whose
payload lacks the permalink field, and a non-failing reviews outcome, the
200 body's permalink equals the fixed default identifier. -/
theorem handler_missing_permalink_default (c : Config)
    (p : UpstreamResp ProductPayload) (r : UpstreamResp ReviewsPayload)
    (htok : jsTruthyStr c.gumroadAccessToken = true)
    (hp : statusOk p.status = true)
    (hperm : p.payload.product.permalink = none)
    (hr : statusOk r.status = true ∨ r.status = 404) :
    (handler c p r).response.status = 200 ∧
      ∃ d, (handler c p r).response.body = .ok d ∧ d.permalink = "rdcvzn" := by
  rcases hr with hr | hr
  · exact ⟨by simp [handler, htok, hp, hr], buildResponseData p.payload r.payload,
      by simp [handler, htok, hp, hr],
      by simp [buildResponseData, jsOrStr, jsTruthyStr, hperm]⟩
  · exact ⟨by simp [handler, htok, hp, hr, statusOk_404],
      buildResponseData p.payload ⟨[]⟩,
      by simp [handler, htok, hp, hr, statusOk_404],
      by simp [buildResponseData, jsOrStr, jsTruthyStr, hperm]⟩

/-- Witness for C9 at a concrete product payload with no permalink. -/
theorem handler_missing_permalink_default_w :
    jsTruthyStr cfgSample.gumroadAccessToken = true ∧
      statusOk productRespBare.status = true ∧
      productRespBare.payload.product.permalink = none ∧
      statusOk reviewsRespSample.status = true ∧
      ((handler cfgSample productRespBare reviewsRespSample).response.status = 200 ∧
        ∃ d, (handler cfgSample productRespBare reviewsRespSample).response.body = .ok d ∧
          d.permalink = "rdcvzn") :=
  ⟨by decide, by decide, by decide, by decide,
    handler_missing_permalink_default cfgSample productRespBare reviewsRespSample
      (by decide) (by decide) (by decide) (Or.inl (by decide))⟩

/-- Claim C10: whenever the handler responds with HTTP 500, no
cache-control header is set — the caching header is attached only on the
success path. -/
theorem handler_error_sets_no_cache_header (c : Config)
    (p : UpstreamResp ProductPayload) (r : UpstreamResp ReviewsPayload)
    (h : (handler c p r).response.status = 500) :
    (handler c p r).response.cacheControl = none := by
  cases htok : jsTruthyStr c.gumroadAccessToken <;>
    cases hp : statusOk p.status <;>
    cases hrok : statusOk r.status <;>
    by_cases h404 : r.status = 404 <;>
    simp [handler, htok, hp, hrok, h404, statusOk_404, errorResponse] at h ⊢

/-- Witness for C10 at a concrete execution with the credential absent. -/
theorem handler_error_sets_no_cache_header_w :
    (handler cfgNoToken productRespSample reviewsRespSample).response.status = 500 ∧
      (handler cfgNoToken productRespSample reviewsRespSample).response.cacheControl = none :=
  ⟨by decide,
    handler_error_sets_no_cache_header cfgNoToken productRespSample reviewsRespSample
      (by decide)⟩
